import Mathlib

/-!
Verification development for the AURA customer-retention analytics core.

The Python source (src/src/data_pipeline/silver_transform.py,
src/src/data_pipeline/gold_agg.py, src/src/data_pipeline/orchestrator.py,
src/src/config/settings.py, src/src/config/constants.py,
src/src/models/decision_engine/rules_engine.py) is shallowly embedded here:

* pandas/NumPy floating-point numbers are modelled as rationals (`ℚ`);
  a missing value (pandas `NaN`/`NaT`, produced by left joins and by
  division of zero by zero) is modelled as `none : Option ℚ`, and the
  pandas rule that any comparison against `NaN` is false is modelled by
  the `oltB`/`ogtB`/`oleZB` helpers;
* `np.round`/`Series.round`/Python `round` (all round-half-to-even) are
  modelled by `npRound`;
* timestamps are modelled at day granularity as integers, matching the
  exclusive use of `.dt.days` differences in the source;
* code that can raise (KeyError on a missing column, ZeroDivisionError)
  returns `Except String`;
* the ambient NumPy random generator used by
  `GoldAggregation._calculate_revenue_metrics` is modelled as explicit
  streams `ℕ → ℚ` (for `np.random.uniform`) and `ℕ → ℕ` (for
  `np.random.randint`), indexed by row position.
-/

set_option autoImplicit false

namespace Aura

/-- Round-half-to-even on rationals, the rounding used by NumPy, pandas and
the Python built-in `round`: the nearest integer, with exact halves going to
the even neighbour. -/
def roundHalfEven (x : ℚ) : ℤ :=
  if x - ⌊x⌋ < 1/2 then ⌊x⌋
  else if 1/2 < x - ⌊x⌋ then ⌊x⌋ + 1
  else if Even ⌊x⌋ then ⌊x⌋ else ⌊x⌋ + 1

/-- Rounding to `d` decimal places as performed by `np.round`,
`Series.round(d)` and Python `round(x, d)`. -/
def npRound (d : ℕ) (x : ℚ) : ℚ :=
  (roundHalfEven (x * 10 ^ d) : ℚ) / 10 ^ d

/-- Comparison `column < bound` under pandas semantics: a comparison whose
left side is `NaN` (here `none`) is false. -/
def oltB (a : Option ℚ) (b : ℚ) : Bool :=
  match a with
  | none => false
  | some x => decide (x < b)

/-- Comparison `column > bound` under pandas semantics (`NaN` compares false). -/
def ogtB (a : Option ℚ) (b : ℚ) : Bool :=
  match a with
  | none => false
  | some x => decide (b < x)

/-- Comparison `column <= bound` for integer-day columns under pandas
semantics (`NaT`-derived `NaN` compares false). -/
def oleZB (a : Option ℤ) (b : ℤ) : Bool :=
  match a with
  | none => false
  | some x => decide (x ≤ b)

/-- Maximum of a list of rationals; `none` on the empty list, matching
`Series.max()` returning `NaN` for an all-missing column. -/
def listMaxQ : List ℚ → Option ℚ
  | [] => none
  | x :: xs => some (xs.foldl max x)

/-- Minimum of a list of rationals; `none` on the empty list. -/
def listMinQ : List ℚ → Option ℚ
  | [] => none
  | x :: xs => some (xs.foldl min x)

/-- Maximum of a list of day-granularity timestamps; `none` on the empty
list. -/
def listMaxZ : List ℤ → Option ℤ
  | [] => none
  | x :: xs => some (xs.foldl max x)

/-- Mean with pandas `skipna=True` semantics: missing entries are dropped,
and a column with no present entry has mean `NaN` (`none`). -/
def omean (l : List (Option ℚ)) : Option ℚ :=
  let v := l.filterMap id
  if v.isEmpty then none else some (v.sum / v.length)

/-- Sum with pandas `skipna=True` semantics: missing entries are dropped and
the empty sum is `0`. -/
def osum (l : List (Option ℚ)) : ℚ :=
  (l.filterMap id).sum

/-! ### Data model: Silver-layer customer profile rows

`Profile` is one row of the Silver `customer_profiles` table built by
`SilverTransform.calculate_derived_metrics` before the health score is
attached: the cleaned customer base columns plus the per-source derived
metrics.  Metric fields are `Option`-valued because the left merges leave
`NaN` for a customer with no events of a source. -/

structure Profile where
  customer_pk : String
  first_name : String
  last_name : String
  email_address : String
  current_subscription_plan : String
  account_status_standardized : String
  account_creation_date : Option ℤ
  total_lifetime_revenue : Option ℚ
  average_transaction_value : Option ℚ
  total_transactions_count : Option ℚ
  days_since_last_transaction : Option ℤ
  total_engagement_events : Option ℚ
  unique_event_types : Option ℚ
  total_sessions : Option ℚ
  last_engagement_date : Option ℤ
  days_since_last_engagement : Option ℚ
  engagement_score : Option ℚ
  total_support_tickets_lifetime : Option ℚ
  avg_satisfaction_score_lifetime : Option ℚ
  days_since_last_support_ticket : Option ℤ
  avg_nps_score_lifetime : Option ℚ
  most_recent_nps_score : Option ℚ
  days_since_last_survey : Option ℤ
  deriving DecidableEq, Repr

/-- Silver profile row together with the composite health score columns
added by `SilverTransform._calculate_health_score`. -/
structure ScoredProfile where
  profile : Profile
  current_health_score : Option ℚ
  health_level : Option String
  deriving DecidableEq, Repr

/-! ### Health Score Calculator (`SilverTransform._calculate_health_score`) -/

/-- Fill step of `_calculate_health_score` (silver_transform.py lines
513-516): `fillna(0)` on exactly the four columns `engagement_score`,
`total_lifetime_revenue`, `avg_satisfaction_score_lifetime` and
`most_recent_nps_score`. -/
def fillHealthDefaults (p : Profile) : Profile :=
  { p with
    engagement_score := some (p.engagement_score.getD 0)
    total_lifetime_revenue := some (p.total_lifetime_revenue.getD 0)
    avg_satisfaction_score_lifetime := some (p.avg_satisfaction_score_lifetime.getD 0)
    most_recent_nps_score := some (p.most_recent_nps_score.getD 0) }

/-- Column maximum with pandas `skipna` semantics: missing entries are
ignored; the maximum of an all-missing column is `NaN` (`none`). -/
def colMax (f : Profile → Option ℚ) (pop : List Profile) : Option ℚ :=
  listMaxQ (pop.filterMap f)

/-- Column minimum with pandas `skipna` semantics. -/
def colMin (f : Profile → Option ℚ) (pop : List Profile) : Option ℚ :=
  listMinQ (pop.filterMap f)

/-- Division of a column entry by the column maximum, as in
`df[c] / df[c].max()` (silver_transform.py lines 519-520).  When the
maximum is `0` the result (`0/0 = NaN` or `x/0 = ±inf`) is not a finite
number and is modelled as `none`; a missing entry stays missing. -/
def normByMax (m : Option ℚ) (x : Option ℚ) : Option ℚ :=
  match x, m with
  | some v, some mv => if mv = 0 then none else some (v / mv)
  | _, _ => none

/-- Engagement normalization used by the health score:
`engagement_score / engagement_score.max()` over the current population
(after the fill step). -/
def engagementNormalized (pop : List Profile) (p : Profile) : Option ℚ :=
  normByMax (colMax (fun q => q.engagement_score) (pop.map fillHealthDefaults))
    (fillHealthDefaults p).engagement_score

/-- Revenue normalization used by the health score:
`total_lifetime_revenue / total_lifetime_revenue.max()` over the current
population (after the fill step). -/
def revenueNormalized (pop : List Profile) (p : Profile) : Option ℚ :=
  normByMax (colMax (fun q => q.total_lifetime_revenue) (pop.map fillHealthDefaults))
    (fillHealthDefaults p).total_lifetime_revenue

/-- Support normalization used by the health score: the fixed 5-point scale
`avg_satisfaction_score_lifetime / 5.0`, independent of the population. -/
def supportNormalized (p : Profile) : Option ℚ :=
  ((fillHealthDefaults p).avg_satisfaction_score_lifetime).map (fun v => v / 5)

/-- NPS normalization used by the health score: the fixed 10-point scale
`most_recent_nps_score / 10.0`, independent of the population. -/
def npsNormalized (p : Profile) : Option ℚ :=
  ((fillHealthDefaults p).most_recent_nps_score).map (fun v => v / 10)

/-- Composite health score of one customer relative to the population
(silver_transform.py lines 525-532): the weighted sum
`0.4 * engagement + 0.3 * revenue + 0.2 * support + 0.1 * nps`, scaled to
0-100 and rounded to one decimal place.  A non-finite normalized component
(`none`) propagates to the score, as `NaN` does in pandas. -/
def currentHealthScore (pop : List Profile) (p : Profile) : Option ℚ :=
  match engagementNormalized pop p, revenueNormalized pop p,
      supportNormalized p, npsNormalized p with
  | some e, some r, some s, some n =>
      some (npRound 1 ((e * (4/10) + r * (3/10) + s * (2/10) + n * (1/10)) * 100))
  | _, _, _, _ => none

/-- Health-level bucketing of `_calculate_health_score`:
`pd.cut(score, bins=[0,40,60,80,100], labels=[Poor,Fair,Good,Excellent],
include_lowest=True)`; values outside `[0,100]` fall out of every bin and
become `NaN`. -/
def healthLevel (h : Option ℚ) : Option String :=
  h.bind (fun x =>
    if x < 0 then none
    else if x ≤ 40 then some "Poor"
    else if x ≤ 60 then some "Fair"
    else if x ≤ 80 then some "Good"
    else if x ≤ 100 then some "Excellent"
    else none)

/-- Population-level health scoring: the fill step is applied to the whole
column and every row receives its score and health level
(`SilverTransform._calculate_health_score` on the merged profile frame). -/
def calculateHealthScore (pop : List Profile) : List ScoredProfile :=
  pop.map (fun p =>
    { profile := fillHealthDefaults p
      current_health_score := currentHealthScore pop p
      health_level := healthLevel (currentHealthScore pop p) })

/-! ### Risk & Segment Classifier (`GoldAggregation._calculate_churn_risk_levels`,
`_generate_recommendations`, `_calculate_client_segments`) -/

/-- Three-level churn risk label. -/
inductive RiskLevel where
  | Low
  | Medium
  | High
  deriving DecidableEq, Repr

/-- Fill step of `_calculate_churn_risk_levels` (gold_agg.py lines 108-111):
`fillna` on exactly `engagement_score` (0), `days_since_last_engagement`
(999), `most_recent_nps_score` (0) and `total_support_tickets_lifetime`
(0); note that `total_lifetime_revenue` is not filled here. -/
def goldFillRisk (p : Profile) : Profile :=
  { p with
    engagement_score := some (p.engagement_score.getD 0)
    days_since_last_engagement := some (p.days_since_last_engagement.getD 999)
    most_recent_nps_score := some (p.most_recent_nps_score.getD 0)
    total_support_tickets_lifetime := some (p.total_support_tickets_lifetime.getD 0) }

/-- Churn probability of one (gold-filled) row, gold_agg.py lines 114-130:
the weighted sum of four boolean factors — low engagement
(`engagement_score < 0.3` or `days_since_last_engagement > 30`, weight
0.4), low revenue (`total_lifetime_revenue < 1000`, weight 0.3), high
support volume (`total_support_tickets_lifetime > 5`, weight 0.2) and low
NPS (`most_recent_nps_score < 3`, weight 0.1). -/
def churnProbabilityRaw (g : Profile) : ℚ :=
  (if oltB g.engagement_score (3/10) || ogtB g.days_since_last_engagement 30
    then 4/10 else 0)
  + (if oltB g.total_lifetime_revenue 1000 then 3/10 else 0)
  + (if ogtB g.total_support_tickets_lifetime 5 then 2/10 else 0)
  + (if oltB g.most_recent_nps_score 3 then 1/10 else 0)

/-- Model of `np.clip(x, 0, 1)` (gold_agg.py line 133). -/
def clip01 (x : ℚ) : ℚ := min 1 (max 0 x)

/-- Risk bucketing of `_calculate_churn_risk_levels` (gold_agg.py lines
137-142): `pd.cut(p, bins=[0, 0.3, 0.6, 1.0], labels=[Low, Medium, High],
include_lowest=True)`, so the intervals are `[0, 0.3]`, `(0.3, 0.6]` and
`(0.6, 1]`, and a value outside `[0, 1]` falls out of every bin (`NaN`). -/
def riskOfProbability (p : ℚ) : Option RiskLevel :=
  if p < 0 then none
  else if p ≤ 3/10 then some RiskLevel.Low
  else if p ≤ 6/10 then some RiskLevel.Medium
  else if p ≤ 1 then some RiskLevel.High
  else none

/-- Clipped churn probability of a scored profile. -/
def churnProbability (sp : ScoredProfile) : ℚ :=
  clip01 (churnProbabilityRaw (goldFillRisk sp.profile))

/-- The `predicted_churn_probability` column: the clipped probability
rounded to three decimals. -/
def predictedChurnProbability (sp : ScoredProfile) : ℚ :=
  npRound 3 (churnProbability sp)

/-- The `churn_risk_level` column of one row. -/
def churnRisk (sp : ScoredProfile) : Option RiskLevel :=
  riskOfProbability (churnProbability sp)

/-- Per-customer decision table of `_generate_recommendations` (gold_agg.py
lines 165-189), evaluated on the gold-filled row `g` with the already
computed risk label: an ordered if/elif chain, first match wins. -/
def recommendedAction (g : Profile) (risk : Option RiskLevel) : String :=
  if risk = some RiskLevel.High then
    if ogtB g.total_lifetime_revenue 10000 then
      "Schedule proactive call with senior account manager"
    else if ogtB g.days_since_last_engagement 30 then
      "Send personalized re-engagement campaign"
    else if oltB g.most_recent_nps_score 3 then
      "Conduct satisfaction survey and address concerns"
    else
      "Offer retention discount or additional support"
  else if risk = some RiskLevel.Medium then
    if oltB g.engagement_score (5/10) then
      "Send educational content and feature highlights"
    else if ogtB g.total_support_tickets_lifetime 3 then
      "Proactive support check-in and training"
    else
      "Regular check-in and relationship building"
  else
    if ogtB g.total_lifetime_revenue 5000 then
      "Identify upsell opportunities"
    else
      "Maintain current relationship"

/-- The `upsell_opportunity_flag` column (gold_agg.py lines 194-197). -/
def upsellFlag (g : Profile) (risk : Option RiskLevel) : Bool :=
  decide (risk = some RiskLevel.Low) && ogtB g.total_lifetime_revenue 3000

/-- The `cross_sell_opportunity_flag` column (gold_agg.py lines 199-202). -/
def crossSellFlag (g : Profile) (risk : Option RiskLevel) : Bool :=
  decide (risk = some RiskLevel.Low) && ogtB g.engagement_score (7/10)

/-- Client segmentation of `_calculate_client_segments` (gold_agg.py lines
226-243). -/
def clientSegment (g : Profile) (risk : Option RiskLevel) : String :=
  if ogtB g.total_lifetime_revenue 20000 then
    if risk = some RiskLevel.Low then "High-Value" else "High-Value At-Risk"
  else if ogtB g.total_lifetime_revenue 5000 then
    if risk = some RiskLevel.Low then "Medium-Value" else "Medium-Value At-Risk"
  else
    if risk = some RiskLevel.Low then "SMB" else "SMB At-Risk"

/-! ### Customer 360 view (`GoldAggregation.create_customer_360_view`)

`_calculate_revenue_metrics` (gold_agg.py lines 267-286) draws
`YOY_MRR_growth_percentage` from `np.random.uniform(-10, 25, n).round(1)`
and `open_support_tickets_count` from `np.random.randint(0, 3, n)`; the
ambient generator is modelled by the explicit per-row streams `rngU` and
`rngI`. -/

/-- One row of the dashboard-filtered `customer_360` table, with exactly
the columns of the `dashboard_columns` list of `create_customer_360_view`
(gold_agg.py lines 72-82) that exist for the Silver profile schema. -/
structure Customer360Row where
  customer_pk : String
  first_name : String
  last_name : String
  email_address : String
  current_subscription_plan : String
  account_status_standardized : String
  days_since_signup : Option ℤ
  current_health_score : Option ℚ
  health_level : Option String
  churn_risk_level : Option RiskLevel
  predicted_churn_probability : ℚ
  recommended_action : String
  upsell_opportunity_flag : Bool
  cross_sell_opportunity_flag : Bool
  last_active_date : Option ℤ
  mrr_current_month : Option ℚ
  yoy_mrr_growth_percentage : ℚ
  avg_engagement_score_90d : Option ℚ
  most_recent_nps_score : Option ℚ
  open_support_tickets_count : ℕ
  client_segment : String
  total_lifetime_revenue : Option ℚ
  engagement_score : Option ℚ
  days_since_last_engagement : Option ℚ
  total_support_tickets_lifetime : Option ℚ
  deriving DecidableEq, Repr

/-- Build one `customer_360` row from a scored Silver profile: the risk
fill and classification, recommendation, segmentation and revenue metrics
of `create_customer_360_view`, with `u` the per-row `np.random.uniform(-10,
25)` draw and `k` the per-row `np.random.randint(0, 3)` draw and `now` the batch
snapshot day. -/
def mkCustomer360Row (now : ℤ) (u : ℚ) (k : ℕ) (sp : ScoredProfile) :
    Customer360Row :=
  let g := goldFillRisk sp.profile
  let prob := clip01 (churnProbabilityRaw g)
  let risk := riskOfProbability prob
  { customer_pk := g.customer_pk
    first_name := g.first_name
    last_name := g.last_name
    email_address := g.email_address
    current_subscription_plan := g.current_subscription_plan
    account_status_standardized := g.account_status_standardized
    days_since_signup := g.account_creation_date.map (fun d => now - d)
    current_health_score := sp.current_health_score
    health_level := sp.health_level
    churn_risk_level := risk
    predicted_churn_probability := npRound 3 prob
    recommended_action := recommendedAction g risk
    upsell_opportunity_flag := upsellFlag g risk
    cross_sell_opportunity_flag := crossSellFlag g risk
    last_active_date := g.last_engagement_date
    mrr_current_month := g.average_transaction_value.map (fun v => npRound 2 (v * (3/10)))
    yoy_mrr_growth_percentage := npRound 1 u
    avg_engagement_score_90d := g.engagement_score.map (fun v => npRound 3 v)
    most_recent_nps_score := g.most_recent_nps_score
    open_support_tickets_count := k
    client_segment := clientSegment g risk
    total_lifetime_revenue := g.total_lifetime_revenue
    engagement_score := g.engagement_score
    days_since_last_engagement := g.days_since_last_engagement
    total_support_tickets_lifetime := g.total_support_tickets_lifetime }

/-- `create_customer_360_view` over a population of scored Silver
profiles. -/
def createCustomer360View (now : ℤ) (rngU : ℕ → ℚ) (rngI : ℕ → ℕ)
    (profiles : List ScoredProfile) : List Customer360Row :=
  profiles.enum.map (fun e => mkCustomer360Row now (rngU e.1) (rngI e.1) e.2)

/-! ### Dashboard KPIs (`GoldAggregation.create_dashboard_kpis`) -/

/-- Stable descending sort by the numeric component, the behaviour of
Python `list.sort(key=count, reverse=True)` used for the top churn reasons
and top strategies (gold_agg.py lines 352 and 366). -/
def stableSortByCountDesc (l : List (String × ℕ)) : List (String × ℕ) :=
  l.mergeSort (fun a b => b.2 ≤ a.2)

/-- Top-3 churn reasons summary of `_get_top_churn_reasons` (gold_agg.py
lines 341-353), modelled as the structured list that the source serializes
with `str(...)`. -/
def topChurnReasons (rows : List Customer360Row) : List (String × ℕ) :=
  (stableSortByCountDesc
    [("Low Engagement", (rows.filter (fun r => oltB r.engagement_score (3/10))).length),
     ("High Support Tickets", (rows.filter (fun r => ogtB r.total_support_tickets_lifetime 5)).length),
     ("Low NPS Score", (rows.filter (fun r => oltB r.most_recent_nps_score 3)).length),
     ("Low Revenue", (rows.filter (fun r => oltB r.total_lifetime_revenue 1000)).length)]).take 3

/-- Top-3 strategies summary of `_get_top_strategies` (gold_agg.py lines
355-367), a constant list sorted by success rate. -/
def topStrategies : List (String × ℕ) :=
  (stableSortByCountDesc
    [("Proactive Outreach", 85), ("Educational Content", 72),
     ("Retention Discounts", 68), ("Feature Training", 75)]).take 3

/-- One row of the `kpi_snapshot` table built by `create_dashboard_kpis`. -/
structure KpiRow where
  report_date : ℤ
  total_active_clients : ℕ
  new_clients_count_daily : ℕ
  churned_clients_count_daily : ℕ
  monthly_recurring_revenue_total : ℚ
  annual_recurring_revenue_total : ℚ
  overall_nps_average : Option ℚ
  overall_retention_rate_30d : ℚ
  overall_engagement_index : Option ℚ
  top_churn_reasons_summary : List (String × ℕ)
  top_performing_strategies_summary : List (String × ℕ)
  deriving DecidableEq, Repr

/-- `create_dashboard_kpis` (gold_agg.py lines 291-339).  The retention
rate divides by `total_active + churned`; with Python integers this raises
`ZeroDivisionError` when both counts are zero. -/
def createDashboardKpis (now : ℤ) (rows : List Customer360Row) :
    Except String KpiRow :=
  let active := (rows.filter (fun r => r.account_status_standardized = "Active")).length
  let churned := (rows.filter (fun r => r.account_status_standardized = "Churned")).length
  let newClients := (rows.filter (fun r => oleZB r.days_since_signup 30)).length
  if active + churned = 0 then
    Except.error "ZeroDivisionError"
  else
    Except.ok
      { report_date := now
        total_active_clients := active
        new_clients_count_daily := newClients / 30
        churned_clients_count_daily := churned / 30
        monthly_recurring_revenue_total := osum (rows.map (fun r => r.mrr_current_month))
        annual_recurring_revenue_total := osum (rows.map (fun r => r.mrr_current_month)) * 12
        overall_nps_average :=
          (omean (rows.map (fun r => r.most_recent_nps_score))).map (fun v => npRound 1 v)
        overall_retention_rate_30d :=
          npRound 1 ((active : ℚ) / ((active : ℚ) + (churned : ℚ)) * 100)
        overall_engagement_index :=
          (omean (rows.map (fun r => r.current_health_score))).map (fun v => npRound 1 v)
        top_churn_reasons_summary := topChurnReasons rows
        top_performing_strategies_summary := topStrategies }

/-! ### AI model features and chatbot context

`aggregate_silver_to_gold` feeds the dashboard-filtered `customer_360`
table into `create_ai_model_features` and `create_chatbot_context`, but the
dashboard column list does not retain every column those functions read, so
the column subscripts raise `KeyError`. -/

/-- One row of the intended `model_features` table (the fields assigned in
`create_ai_model_features`, gold_agg.py lines 386-429). -/
structure FeatureRow where
  customer_pk : String
  feature_snapshot_date : ℤ
  feature_avg_daily_active_events_90d : Option ℚ
  feature_total_transaction_value_60d : Option ℚ
  feature_support_tickets_30d_count : Option ℚ
  feature_days_since_last_login : Option ℚ
  feature_last_nps_score : Option ℚ
  feature_churn_history_365d_flag : ℕ
  feature_subscription_plan_tier : ℕ
  feature_age_of_account_days : Option ℤ
  target_churned_next_30d : ℕ
  deriving DecidableEq, Repr

/-- `create_ai_model_features` (gold_agg.py lines 369-432): line 392
subscripts the `total_engagement_events` column of `customer_360`, but that column is
not in the `dashboard_columns` list that `create_customer_360_view`
filtered the table to, so the call raises `KeyError` unconditionally. -/
def createAiModelFeatures (_rows : List Customer360Row) :
    Except String (List FeatureRow) :=
  Except.error "KeyError: total_engagement_events"

/-- One row of the intended `chat_context` table (the fields assigned in
`create_chatbot_context`, gold_agg.py lines 474-484). -/
structure ChatContextRow where
  customer_pk : String
  curated_client_summary : String
  key_insights_last_month : String
  relevant_playbook_strategies : String
  historical_churn_factors_for_segment : String
  recent_support_issues_summary : String
  recommended_proactive_questions : String
  last_support_transcript_snippet : String
  deriving DecidableEq, Repr

/-- `create_chatbot_context` (gold_agg.py lines 434-491): for every row
iterated, `_get_support_summary` subscripts
the `avg_satisfaction_score_lifetime` column, which the dashboard
filter dropped, so the first iteration raises `KeyError`; with no rows the
loop body never runs and an empty table is returned. -/
def createChatbotContext (rows : List Customer360Row) :
    Except String (List ChatContextRow) :=
  match rows with
  | [] => Except.ok []
  | _ :: _ => Except.error "KeyError: avg_satisfaction_score_lifetime"

/-! ### Publication and batch validation
(`GoldAggregation.aggregate_silver_to_gold`, `_save_gold_data`,
`DataPipelineOrchestrator._run_gold_aggregation`, `_validate_gold_data`) -/

/-- The four Gold output tables assembled by `aggregate_silver_to_gold`. -/
structure GoldData where
  customer_360_dashboard_view : List Customer360Row
  overall_kpi_dashboard_view : List KpiRow
  ai_model_features_for_churn_prediction : List FeatureRow
  ai_chatbot_context : List ChatContextRow
  deriving DecidableEq, Repr

/-- A published Gold-layer table (one parquet file). -/
inductive SavedTable where
  | c360 (rows : List Customer360Row)
  | kpi (rows : List KpiRow)
  | features (rows : List FeatureRow)
  | chat (rows : List ChatContextRow)
  deriving DecidableEq, Repr

/-- The published Gold layer: the parquet files on disk, as a name-keyed
association list. -/
def GoldState := List (String × SavedTable)

/-- Overwrite-or-create one published table, as `df.to_parquet` does for
one file. -/
def writeTable : GoldState → String → SavedTable → GoldState
  | [], n, t => [(n, t)]
  | (m, u) :: rest, n, t =>
      if m = n then (n, t) :: rest else (m, u) :: writeTable rest n t

/-- `_save_gold_data` (gold_agg.py lines 574-582): every non-empty table of
the batch is written over the previously published file of the same name;
empty tables are skipped. -/
def saveGoldData (state : GoldState) (g : GoldData) : GoldState :=
  let s1 := if g.customer_360_dashboard_view.isEmpty then state
    else writeTable state "customer_360_dashboard_view" (SavedTable.c360 g.customer_360_dashboard_view)
  let s2 := if g.overall_kpi_dashboard_view.isEmpty then s1
    else writeTable s1 "overall_kpi_dashboard_view" (SavedTable.kpi g.overall_kpi_dashboard_view)
  let s3 := if g.ai_model_features_for_churn_prediction.isEmpty then s2
    else writeTable s2 "ai_model_features_for_churn_prediction" (SavedTable.features g.ai_model_features_for_churn_prediction)
  if g.ai_chatbot_context.isEmpty then s3
    else writeTable s3 "ai_chatbot_context" (SavedTable.chat g.ai_chatbot_context)

/-- `aggregate_silver_to_gold` (gold_agg.py lines 530-572): when the Silver
`customer_profiles` table is present and non-empty, build the four Gold
tables in order and then save them; an exception in any builder propagates
and nothing is saved.  Returns the updated published state together with
the tables of the batch. -/
def aggregateSilverToGold (now : ℤ) (rngU : ℕ → ℚ) (rngI : ℕ → ℕ)
    (profiles : List ScoredProfile) (state : GoldState) :
    Except String (GoldState × GoldData) :=
  if profiles.isEmpty then
    Except.ok (state, ⟨[], [], [], []⟩)
  else do
    let c360 := createCustomer360View now rngU rngI profiles
    let kpis ← createDashboardKpis now c360
    let feats ← createAiModelFeatures c360
    let chat ← createChatbotContext c360
    let g : GoldData := ⟨c360, [kpis], feats, chat⟩
    Except.ok (saveGoldData state g, g)

/-- Required columns checked by `_validate_gold_data` for the customer 360
view (orchestrator.py line 286). -/
def requiredGoldColumns : List String :=
  ["customer_pk", "current_health_score", "churn_risk_level", "recommended_action"]

/-- The columns that the dashboard filter of `create_customer_360_view`
retains (gold_agg.py lines 72-82; every listed column exists for the
Silver profile schema, and `dashboard_data_last_refreshed_at` is not
listed, so the published view carries no batch-timestamp column). -/
def dashboardColumns : List String :=
  ["customer_pk", "first_name", "last_name", "email_address",
   "current_subscription_plan", "account_status_standardized",
   "days_since_signup", "current_health_score", "health_level",
   "churn_risk_level", "predicted_churn_probability", "recommended_action",
   "upsell_opportunity_flag", "cross_sell_opportunity_flag",
   "last_active_date", "MRR_current_month", "YOY_MRR_growth_percentage",
   "avg_engagement_score_90d", "most_recent_nps_score",
   "open_support_tickets_count", "client_segment", "total_lifetime_revenue",
   "engagement_score", "days_since_last_engagement",
   "total_support_tickets_lifetime"]

/-- `_validate_gold_data` (orchestrator.py lines 264-297): the only
condition recorded as an error is a required column missing from a
non-empty customer 360 view; everything else (empty tables, null health
scores) is recorded as a warning. -/
def validateGoldData (g : GoldData) : List String :=
  if ¬ g.customer_360_dashboard_view.isEmpty
      ∧ requiredGoldColumns.any (fun c => ¬ dashboardColumns.contains c) then
    ["Missing columns in customer_360_dashboard_view"]
  else []

/-- `_run_gold_aggregation` (orchestrator.py lines 196-227): run the
aggregation (which already saved its tables), then compute the validation
result, whose errors are only logged as warnings; an exception from the
aggregation is re-raised. -/
def runGoldAggregation (now : ℤ) (rngU : ℕ → ℚ) (rngI : ℕ → ℕ)
    (profiles : List ScoredProfile) (state : GoldState) :
    Except String (GoldState × GoldData × List String) :=
  match aggregateSilverToGold now rngU rngI profiles state with
  | Except.error e => Except.error e
  | Except.ok (s, g) => Except.ok (s, g, validateGoldData g)

/-! ### Signal Aggregator (`SilverTransform.calculate_derived_metrics`)

Inputs are the cleaned Silver event collections; timestamps are day
numbers, and `days_since_X` is the day difference to the batch snapshot day `now`. -/

/-- Cleaned customer base row (the columns of `clean_customer_data` that
the derived-metrics stage carries forward). -/
structure CustomerRow where
  customer_pk : String
  first_name : String
  last_name : String
  email_address : String
  current_subscription_plan : String
  account_status_standardized : String
  account_creation_date : Option ℤ
  deriving DecidableEq, Repr

/-- Cleaned transaction row. -/
structure TransactionRow where
  customer_id : String
  amount : ℚ
  transaction_date : ℤ
  deriving DecidableEq, Repr

/-- Cleaned engagement event row. -/
structure EngagementRow where
  customer_id : String
  event_timestamp : ℤ
  event_type : String
  session_id : String
  deriving DecidableEq, Repr

/-- Cleaned support interaction row. -/
structure SupportRow where
  customer_id : String
  ticket_id : String
  satisfaction_score : ℚ
  created_at : ℤ
  deriving DecidableEq, Repr

/-- Cleaned survey response row. -/
structure SurveyRow where
  customer_id : String
  nps_score : ℚ
  response_date : ℤ
  deriving DecidableEq, Repr

/-- Keep only events whose `customer_id` is a known customer key
(the `isin(valid_customers)` filters in the four metric helpers); events
referencing unknown customers are dropped. -/
def validEvents {α : Type} (cid : α → String) (customers : List CustomerRow)
    (events : List α) : List α :=
  events.filter (fun e => customers.any (fun c => c.customer_pk = cid e))

/-- The events of one customer (one per-customer group of the groupby on customer id). -/
def eventsOf {α : Type} (cid : α → String) (events : List α) (pk : String) :
    List α :=
  events.filter (fun e => cid e = pk)

/-- Maximum of a non-empty timestamp group. -/
def groupMaxDate (d : ℤ) (ds : List ℤ) : ℤ := ds.foldl max d

/-- Build the `Profile` row of one customer out of their per-source event
groups, exactly the aggregations of `_calculate_transaction_metrics`,
`_calculate_engagement_metrics`, `_calculate_support_metrics` and
`_calculate_survey_metrics` merged left onto the customer base: a customer
with no events of a source gets `none` (`NaN`) for the fields of that source. -/
def buildProfile (now : ℤ) (c : CustomerRow) (ts : List TransactionRow)
    (es : List EngagementRow) (ss : List SupportRow) (vs : List SurveyRow) :
    Profile :=
  { customer_pk := c.customer_pk
    first_name := c.first_name
    last_name := c.last_name
    email_address := c.email_address
    current_subscription_plan := c.current_subscription_plan
    account_status_standardized := c.account_status_standardized
    account_creation_date := c.account_creation_date
    total_lifetime_revenue :=
      match ts with
      | [] => none
      | t :: rest => some (npRound 2 ((t.amount :: rest.map (fun x => x.amount)).sum))
    average_transaction_value :=
      match ts with
      | [] => none
      | t :: rest =>
          some (npRound 2 ((t.amount :: rest.map (fun x => x.amount)).sum / (rest.length + 1)))
    total_transactions_count :=
      match ts with
      | [] => none
      | _ :: rest => some ((rest.length : ℚ) + 1)
    days_since_last_transaction :=
      match ts with
      | [] => none
      | t :: rest =>
          some (now - groupMaxDate t.transaction_date (rest.map (fun x => x.transaction_date)))
    total_engagement_events :=
      match es with
      | [] => none
      | _ :: rest => some ((rest.length : ℚ) + 1)
    unique_event_types :=
      match es with
      | [] => none
      | e :: rest =>
          some (((e.event_type :: rest.map (fun x => x.event_type)).dedup.length : ℚ))
    total_sessions :=
      match es with
      | [] => none
      | e :: rest =>
          some (((e.session_id :: rest.map (fun x => x.session_id)).dedup.length : ℚ))
    last_engagement_date :=
      match es with
      | [] => none
      | e :: rest => some (groupMaxDate e.event_timestamp (rest.map (fun x => x.event_timestamp)))
    days_since_last_engagement :=
      match es with
      | [] => none
      | e :: rest =>
          some ((now - groupMaxDate e.event_timestamp (rest.map (fun x => x.event_timestamp)) : ℤ))
    engagement_score :=
      match es with
      | [] => none
      | e :: rest =>
          -- events per month: count / (days_since_last_engagement / 30 + 1)
          let days : ℚ := (now - groupMaxDate e.event_timestamp (rest.map (fun x => x.event_timestamp)) : ℤ)
          let denom := days / 30 + 1
          if denom = 0 then none  -- division by zero is a non-finite value
          else some (npRound 3 (((rest.length : ℚ) + 1) / denom))
    total_support_tickets_lifetime :=
      match ss with
      | [] => none
      | _ :: rest => some ((rest.length : ℚ) + 1)
    avg_satisfaction_score_lifetime :=
      match ss with
      | [] => none
      | s :: rest =>
          some (npRound 2 ((s.satisfaction_score :: rest.map (fun x => x.satisfaction_score)).sum / (rest.length + 1)))
    days_since_last_support_ticket :=
      match ss with
      | [] => none
      | s :: rest => some (now - groupMaxDate s.created_at (rest.map (fun x => x.created_at)))
    avg_nps_score_lifetime :=
      match vs with
      | [] => none
      | v :: rest =>
          some (npRound 2 ((v.nps_score :: rest.map (fun x => x.nps_score)).sum / (rest.length + 1)))
    most_recent_nps_score :=
      match vs with
      | [] => none
      | v :: rest =>
          some (npRound 2 ((rest.map (fun x => x.nps_score)).foldl max v.nps_score))
    days_since_last_survey :=
      match vs with
      | [] => none
      | v :: rest => some (now - groupMaxDate v.response_date (rest.map (fun x => x.response_date))) }

/-- `calculate_derived_metrics` (silver_transform.py lines 301-348)
followed by `_calculate_health_score`.  When one of the four filtered
event collections is empty its metric helper returns a customer-key-only
frame, the left merge produces no metric columns for that source, and
`_calculate_health_score` (or the Gold fill) then subscripts a missing
column and raises `KeyError`; that failure is the `Except.error` branch. -/
def calculateDerivedMetrics (now : ℤ) (customers : List CustomerRow)
    (txs : List TransactionRow) (evs : List EngagementRow)
    (tks : List SupportRow) (svs : List SurveyRow) :
    Except String (List ScoredProfile) :=
  let vtx := validEvents (fun t => t.customer_id) customers txs
  let vev := validEvents (fun e => e.customer_id) customers evs
  let vtk := validEvents (fun s => s.customer_id) customers tks
  let vsv := validEvents (fun v => v.customer_id) customers svs
  if vtx.isEmpty || vev.isEmpty || vtk.isEmpty || vsv.isEmpty then
    Except.error "KeyError: missing metric columns"
  else
    Except.ok (calculateHealthScore (customers.map (fun c =>
      buildProfile now c
        (eventsOf (fun t => t.customer_id) vtx c.customer_pk)
        (eventsOf (fun e => e.customer_id) vev c.customer_pk)
        (eventsOf (fun s => s.customer_id) vtk c.customer_pk)
        (eventsOf (fun v => v.customer_id) vsv c.customer_pk))))

/-! ### Configuration (`src/config/settings.py`, `src/config/constants.py`) -/

/-- The `Settings` fields relevant to the analytics core (settings.py
lines 54-65). -/
structure Settings where
  prophet_forecast_days : ℕ
  churn_risk_threshold_high : ℚ
  churn_risk_threshold_medium : ℚ
  health_score_weights : List (String × ℚ)
  deriving DecidableEq, Repr

/-- The default weight mapping of `Settings.health_score_weights`. -/
def defaultHealthScoreWeights : List (String × ℚ) :=
  [("engagement", 4/10), ("revenue", 3/10), ("support", 2/10), ("nps", 1/10)]

/-- The decision-engine rule weights `AIModelParams.RULE_WEIGHTS`
(constants.py lines 128-133), a plain class attribute with no validation
attached. -/
def ruleWeights : List (String × ℚ) :=
  [("engagement", 4/10), ("revenue", 3/10), ("support", 2/10), ("nps", 1/10)]

/-- Construction of `Settings` with a given weight mapping: the pydantic
model validates field types only; no validator inspects the weight values,
so any well-typed mapping is accepted and no configuration error is ever
raised for the weights. -/
def loadSettings (weights : List (String × ℚ)) : Except String Settings :=
  Except.ok
    { prophet_forecast_days := 30
      churn_risk_threshold_high := 7/10
      churn_risk_threshold_medium := 4/10
      health_score_weights := weights }

/-! ### Rule-based decision engine
(`src/models/decision_engine/rules_engine.py`)

`customer_data.get(label, default)` on a pandas Series returns the default
when the label is absent; the fields are `Option`-valued and `.getD`
applies the defaults of the source. -/

/-- Customer profile Series as read by the decision engine. -/
structure RuleCustomer where
  customer_pk : Option String
  engagement_score : Option ℚ
  days_since_last_engagement : Option ℚ
  total_lifetime_revenue : Option ℚ
  average_transaction_value : Option ℚ
  total_support_tickets_lifetime : Option ℚ
  avg_satisfaction_score_lifetime : Option ℚ
  most_recent_nps_score : Option ℚ
  deriving DecidableEq, Repr

/-- Result of `analyze_customer_risk` (the fields the batch processor
consumes). -/
structure RiskAnalysis where
  customer_pk : String
  composite_risk_score : ℚ
  risk_level : String
  engagement_risk : ℚ
  revenue_risk : ℚ
  support_risk : ℚ
  satisfaction_risk : ℚ
  activity_risk : ℚ
  key_factors : List String
  confidence : String
  deriving DecidableEq, Repr

/-- Confidence of `_calculate_confidence` (rules_engine.py lines 231-241):
population variance (`np.var`) of the five factor scores against the
composite risk. -/
def confidenceOf (vals : List ℚ) (composite : ℚ) : String :=
  let m := vals.sum / (vals.length : ℚ)
  let varc := (vals.map (fun v => (v - m) ^ 2)).sum / (vals.length : ℚ)
  if varc < 1/10 ∧ composite > 7/10 then "High"
  else if varc < 2/10 then "Medium"
  else "Low"

/-- Factor key to display name, the replace of the `_risk` suffix followed by `title()`
(rules_engine.py line 143). -/
def factorTitle (s : String) : String :=
  (s.dropRight 5).capitalize

/-- `analyze_customer_risk` (rules_engine.py lines 40-156), with the
thresholds of `ChurnRiskThresholds` (engagement 0.3/0.5, activity 30/90
days, NPS detractor 6 / passive 7) and the risk-level thresholds of
`settings` (high 0.7, medium 0.4). -/
def analyzeCustomerRisk (c : RuleCustomer) : RiskAnalysis :=
  let eng := c.engagement_score.getD 0
  let days := c.days_since_last_engagement.getD 999
  let engRisk : ℚ := if eng < 3/10 then 8/10 else if eng < 5/10 then 5/10 else 2/10
  let actRisk : ℚ := if days > 90 then 9/10 else if days > 30 then 6/10 else 1/10
  let rev := c.total_lifetime_revenue.getD 0
  let atv := c.average_transaction_value.getD 0
  let revRisk0 : ℚ := if rev < 1000 then 7/10 else if rev < 5000 then 4/10 else 1/10
  let revRisk : ℚ := if atv < 100 then min (revRisk0 + 3/10) 1 else revRisk0
  let tickets := c.total_support_tickets_lifetime.getD 0
  let sat := c.avg_satisfaction_score_lifetime.getD 0
  let supRisk : ℚ := if tickets > 10 then 8/10 else if tickets > 5 then 5/10 else 2/10
  let satRisk0 : ℚ := if sat < 3 then 9/10 else if sat < 4 then 6/10 else 1/10
  let nps := c.most_recent_nps_score.getD 0
  let satRisk : ℚ :=
    if nps ≤ 6 then max satRisk0 (8/10)
    else if nps ≤ 7 then max satRisk0 (5/10)
    else satRisk0
  let composite :=
    engRisk * (4/10) + revRisk * (3/10) + supRisk * (2/10) + satRisk * (1/10)
      + actRisk * (1/10)
  let level := if composite ≥ 7/10 then "High"
    else if composite ≥ 4/10 then "Medium" else "Low"
  let factors := [("engagement_risk", engRisk), ("revenue_risk", revRisk),
    ("support_risk", supRisk), ("satisfaction_risk", satRisk),
    ("activity_risk", actRisk)]
  { customer_pk := c.customer_pk.getD "unknown"
    composite_risk_score := npRound 3 composite
    risk_level := level
    engagement_risk := engRisk
    revenue_risk := revRisk
    support_risk := supRisk
    satisfaction_risk := satRisk
    activity_risk := actRisk
    key_factors := (factors.filter (fun f => f.2 > 6/10)).map (fun f => factorTitle f.1)
    confidence := confidenceOf (factors.map (fun f => f.2)) composite }

/-- Model of the `list(set(xs))` truncation to 5 (rules_engine.py line 226).  The CPython set
iteration order over strings is unspecified (hash-randomized); it is
modelled as first-occurrence deduplication, and no claim proved here
depends on the resulting order. -/
def pySetTake5 (xs : List String) : List String :=
  xs.dedup.take 5

/-- Base action list per risk level (`_get_high_risk_actions`,
`_get_medium_risk_actions`, `_get_low_risk_actions`). -/
def baseActions (level : String) (rev : ℚ) : List String :=
  if level = "High" then
    ["Schedule immediate executive call", "Conduct emergency satisfaction survey",
     "Offer retention discount or special terms", "Assign dedicated account manager",
     "Implement daily monitoring and alerts"]
    ++ (if rev > 10000 then
        ["Escalate to C-level executive", "Prepare custom retention proposal"]
      else [])
  else if level = "Medium" then
    ["Schedule proactive check-in call", "Send personalized engagement content",
     "Offer additional training or support", "Conduct quarterly business review",
     "Implement weekly monitoring"]
  else
    ["Maintain regular communication", "Share relevant product updates",
     "Identify upsell opportunities", "Conduct annual satisfaction survey",
     "Monitor engagement trends"]

/-- Per-key-factor action extensions (rules_engine.py lines 199-223). -/
def factorActions (factor : String) : List String :=
  if factor = "Engagement" then
    ["Send personalized re-engagement email campaign",
     "Schedule feature training session",
     "Provide usage analytics and insights"]
  else if factor = "Revenue" then
    ["Review pricing and value proposition",
     "Offer retention discount or upgrade",
     "Conduct business value assessment"]
  else if factor = "Support" then
    ["Assign dedicated support representative",
     "Conduct support satisfaction survey",
     "Implement proactive support monitoring"]
  else if factor = "Satisfaction" then
    ["Conduct detailed satisfaction interview",
     "Address specific pain points",
     "Implement feedback-driven improvements"]
  else []

/-- Priority of `_calculate_priority` (rules_engine.py lines 243-258). -/
def priorityOf (level : String) (rev : ℚ) : String :=
  if level = "High" ∧ rev > 10000 then "Critical"
  else if level = "High" ∧ rev > 5000 then "High"
  else if level = "Medium" ∧ rev > 10000 then "High"
  else if level = "High" then "Medium"
  else "Low"

/-- Timeline of `_calculate_timeline`. -/
def timelineOf (level : String) : String :=
  if level = "High" then "Immediate (within 24 hours)"
  else if level = "Medium" then "Urgent (within 1 week)"
  else "Standard (within 2 weeks)"

/-- Expected outcome of `_calculate_expected_outcome`. -/
def expectedOutcomeOf (level : String) (confidence : String) : String :=
  if level = "High" ∧ confidence = "High" then
    "High probability of retention with immediate action"
  else if level = "High" then
    "Moderate probability of retention with targeted efforts"
  else if level = "Medium" then
    "Good probability of retention with standard approach"
  else "Maintain current relationship and monitor"

/-- The deduplicated top-5 recommended actions of
`generate_recommendations` (rules_engine.py lines 187-226). -/
def recommendedActions (ra : RiskAnalysis) (c : RuleCustomer) : List String :=
  pySetTake5 (baseActions ra.risk_level (c.total_lifetime_revenue.getD 0)
    ++ (ra.key_factors.map factorActions).flatten)

/-- One row of the batch-processing result frame
(`process_customer_batch`, rules_engine.py lines 408-418). -/
structure ResultRow where
  customer_pk : String
  risk_score : ℚ
  risk_level : String
  priority : String
  recommended_action : String
  timeline : String
  expected_outcome : String
  key_factors : String
  confidence : String
  deriving DecidableEq, Repr

/-- Body of the per-customer `try` block of `process_customer_batch`:
analyze, recommend, and combine into one result row; the first recommended
action (or `Monitor` when the list is empty) becomes `recommended_action`. -/
def processOneCustomer (c : RuleCustomer) : ResultRow :=
  let ra := analyzeCustomerRisk c
  let actions := recommendedActions ra c
  { customer_pk := c.customer_pk.getD "unknown"
    risk_score := ra.composite_risk_score
    risk_level := ra.risk_level
    priority := priorityOf ra.risk_level (c.total_lifetime_revenue.getD 0)
    recommended_action := actions.headD "Monitor"
    timeline := timelineOf ra.risk_level
    expected_outcome := expectedOutcomeOf ra.risk_level ra.confidence
    key_factors := String.intercalate ", " ra.key_factors
    confidence := ra.confidence }

/-- The placeholder row appended by the `except` branch of
`process_customer_batch` (rules_engine.py lines 425-435). -/
def errorResultRow (c : RuleCustomer) : ResultRow :=
  { customer_pk := c.customer_pk.getD "unknown"
    risk_score := 0
    risk_level := "Unknown"
    priority := "Unknown"
    recommended_action := "Error in analysis"
    timeline := "Unknown"
    expected_outcome := "Analysis failed"
    key_factors := "Error"
    confidence := "Low" }

/-- `process_customer_batch` (rules_engine.py lines 381-440), parametrized
over the per-customer step so that the `try/except` structure is explicit:
each row is processed independently, and a step that raises contributes
the placeholder row instead of being dropped. -/
def processCustomerBatchWith (step : RuleCustomer → Except String ResultRow)
    (customers : List RuleCustomer) : List ResultRow :=
  customers.map (fun c =>
    match step c with
    | Except.ok r => r
    | Except.error _ => errorResultRow c)

/-- `process_customer_batch` with the actual (total) per-customer step. -/
def processCustomerBatch (customers : List RuleCustomer) : List ResultRow :=
  processCustomerBatchWith (fun c => Except.ok (processOneCustomer c)) customers

/-! ### Helper lemmas -/

theorem le_foldl_max (a : ℚ) (xs : List ℚ) : a ≤ xs.foldl max a := by
  induction xs generalizing a with
  | nil => exact le_refl a
  | cons x xs ih => exact le_trans (le_max_left a x) (ih (max a x))

theorem mem_le_foldl_max {b : ℚ} (xs : List ℚ) (a : ℚ) (hb : b ∈ xs) :
    b ≤ xs.foldl max a := by
  induction xs generalizing a with
  | nil => cases hb
  | cons x xs ih =>
    rcases List.mem_cons.mp hb with h | h
    · subst h
      exact le_trans (le_max_right a b) (le_foldl_max _ xs)
    · exact ih (max a x) h

theorem le_of_mem_listMaxQ {l : List ℚ} {a m : ℚ} (ha : a ∈ l)
    (hm : listMaxQ l = some m) : a ≤ m := by
  cases l with
  | nil => cases ha
  | cons x xs =>
    simp only [listMaxQ, Option.some.injEq] at hm
    subst hm
    rcases List.mem_cons.mp ha with h | h
    · subst h; exact le_foldl_max _ xs
    · exact mem_le_foldl_max xs x h

theorem foldl_max_const {v : ℚ} {xs : List ℚ} (h : ∀ b ∈ xs, b = v) :
    xs.foldl max v = v := by
  induction xs with
  | nil => rfl
  | cons x xs ih =>
    have hx : x = v := h x (List.mem_cons_self x xs)
    subst hx
    simp only [List.foldl_cons, max_self]
    exact ih (fun b hb => h b (List.mem_cons_of_mem _ hb))

theorem listMaxQ_const {v : ℚ} {l : List ℚ} (hne : l ≠ [])
    (h : ∀ b ∈ l, b = v) : listMaxQ l = some v := by
  cases l with
  | nil => exact absurd rfl hne
  | cons x xs =>
    have hx : x = v := h x (List.mem_cons_self x xs)
    subst hx
    simp only [listMaxQ, Option.some.injEq]
    exact foldl_max_const (fun b hb => h b (List.mem_cons_of_mem _ hb))

theorem roundHalfEven_nonneg {x : ℚ} (h : 0 ≤ x) : 0 ≤ roundHalfEven x := by
  have hf : (0 : ℤ) ≤ ⌊x⌋ := Int.le_floor.mpr (by exact_mod_cast h)
  unfold roundHalfEven
  split_ifs <;> omega

theorem roundHalfEven_le_int {x : ℚ} {B : ℤ} (h : x ≤ (B : ℚ)) :
    roundHalfEven x ≤ B := by
  have hf : ⌊x⌋ ≤ B := by
    calc ⌊x⌋ ≤ ⌊(B : ℚ)⌋ := Int.floor_le_floor h
    _ = B := Int.floor_intCast B
  have hfl : (⌊x⌋ : ℚ) ≤ x := Int.floor_le x
  unfold roundHalfEven
  split_ifs with h1 h2 h3
  · exact hf
  · -- x - ⌊x⌋ > 1/2, so ⌊x⌋ < B and ⌊x⌋ + 1 ≤ B
    have : (⌊x⌋ : ℚ) < (B : ℚ) := by linarith
    have : ⌊x⌋ < B := by exact_mod_cast this
    omega
  · exact hf
  · have : (⌊x⌋ : ℚ) < (B : ℚ) := by
      by_contra hc
      push_neg at hc
      have : x - ⌊x⌋ ≤ 0 := by linarith
      linarith [not_lt.mp h1]
    have : ⌊x⌋ < B := by exact_mod_cast this
    omega

theorem npRound_nonneg (d : ℕ) {x : ℚ} (h : 0 ≤ x) : 0 ≤ npRound d x := by
  unfold npRound
  have h1 : (0 : ℚ) ≤ (roundHalfEven (x * 10 ^ d) : ℚ) := by
    exact_mod_cast roundHalfEven_nonneg (by positivity)
  positivity

theorem npRound_le_int (d : ℕ) {x : ℚ} {B : ℤ} (h : x ≤ (B : ℚ)) :
    npRound d x ≤ (B : ℚ) := by
  unfold npRound
  have hp : (0 : ℚ) < 10 ^ d := by positivity
  have h1 : x * 10 ^ d ≤ (B : ℚ) * 10 ^ d := by
    exact mul_le_mul_of_nonneg_right h (le_of_lt hp)
  have h2 : roundHalfEven (x * 10 ^ d) ≤ B * 10 ^ d := by
    apply roundHalfEven_le_int
    push_cast
    exact h1
  have h3 : (roundHalfEven (x * 10 ^ d) : ℚ) ≤ (B : ℚ) * 10 ^ d := by
    exact_mod_cast h2
  rw [div_le_iff₀ hp]
  exact h3

/-! ### Sample data used by witnesses and counterexamples -/

/-- A customer profile row with no event-derived metrics (all sources
missing). -/
def sampleBase : Profile :=
  { customer_pk := "CUST_000"
    first_name := "Ada"
    last_name := "Lovelace"
    email_address := "ada@example.com"
    current_subscription_plan := "Basic"
    account_status_standardized := "Active"
    account_creation_date := some 0
    total_lifetime_revenue := none
    average_transaction_value := none
    total_transactions_count := none
    days_since_last_transaction := none
    total_engagement_events := none
    unique_event_types := none
    total_sessions := none
    last_engagement_date := none
    days_since_last_engagement := none
    engagement_score := none
    total_support_tickets_lifetime := none
    avg_satisfaction_score_lifetime := none
    days_since_last_support_ticket := none
    avg_nps_score_lifetime := none
    most_recent_nps_score := none
    days_since_last_survey := none }

/-- A very healthy, high-revenue customer anchoring the population
maxima. -/
def pC1A : Profile :=
  { sampleBase with
    customer_pk := "CUST_A"
    engagement_score := some 10
    total_lifetime_revenue := some 100000
    avg_satisfaction_score_lifetime := some 5
    most_recent_nps_score := some 10
    days_since_last_engagement := some 1
    total_support_tickets_lifetime := some 0 }

/-- A customer with a very low health score relative to the population but
none of the churn-probability factors: moderately recent engagement, just
enough revenue, NPS exactly 3 and no support tickets. -/
def pC1B : Profile :=
  { sampleBase with
    customer_pk := "CUST_B"
    engagement_score := some (3/10)
    total_lifetime_revenue := some 1000
    avg_satisfaction_score_lifetime := some 0
    most_recent_nps_score := some 3
    days_since_last_engagement := some 10
    total_support_tickets_lifetime := some 0 }

/-- The scored row the Silver stage produces for `pC1B` in the population
`[pC1A, pC1B]`: health score 4.5, health level Poor. -/
def spC1B : ScoredProfile :=
  { profile := fillHealthDefaults pC1B
    current_health_score := some (9/2)
    health_level := some "Poor" }

/-- Rank of a risk label, for monotonicity statements: higher is riskier. -/
def riskRank : Option RiskLevel → ℕ
  | none => 0
  | some RiskLevel.Low => 1
  | some RiskLevel.Medium => 2
  | some RiskLevel.High => 3

/-- C1 counterexample: in the population `[pC1A, pC1B]` the customer
`pC1B` has health score 4.5 (far below 40), yet the Gold classifier labels
it `Low` risk, because `churn_risk_level` is computed from the
boolean-factor churn probability and never reads the health score; the
claimed `health_score < 40 → High` rule is false on the code. -/
theorem churn_risk_not_function_of_health_counterexample :
    (calculateHealthScore [pC1A, pC1B])[1]? = some spC1B
    ∧ spC1B.current_health_score = some (9/2)
    ∧ ((9/2 : ℚ) < 40)
    ∧ churnRisk spC1B = some RiskLevel.Low
    ∧ RiskLevel.Low ≠ RiskLevel.High := by
  refine ⟨?_, rfl, by norm_num, ?_, by decide⟩
  · simp [calculateHealthScore, currentHealthScore, engagementNormalized,
      revenueNormalized, supportNormalized, npsNormalized, colMax, listMaxQ,
      normByMax, healthLevel, npRound, roundHalfEven, fillHealthDefaults,
      pC1A, pC1B, spC1B, sampleBase, max_def]
    norm_num
  · simp [churnRisk, churnProbability, churnProbabilityRaw, goldFillRisk,
      clip01, riskOfProbability, oltB, ogtB, spC1B, pC1B, sampleBase,
      fillHealthDefaults]
    norm_num

/-- C1 (amended): the Gold churn-risk label is a pure function of the
clipped churn probability (not of the health score), bucketed by
`pd.cut([0, 0.3, 0.6, 1.0])`: it is monotone non-decreasing in the
probability, and the boundary values 0.3 and 0.6 classify into the
lower-risk bucket (inclusive upper bound). -/
theorem churn_risk_monotone_in_probability :
    (∀ sp : ScoredProfile, churnRisk sp = riskOfProbability (churnProbability sp))
    ∧ (∀ p q : ℚ, 0 ≤ p → p ≤ q → q ≤ 1 →
        riskRank (riskOfProbability p) ≤ riskRank (riskOfProbability q))
    ∧ riskOfProbability (3/10) = some RiskLevel.Low
    ∧ riskOfProbability (6/10) = some RiskLevel.Medium := by
  refine ⟨fun sp => rfl, ?_, by norm_num [riskOfProbability],
    by norm_num [riskOfProbability]⟩
  intro p q hp hpq hq
  unfold riskOfProbability riskRank
  split_ifs <;> simp_all <;> linarith

/-- Witness for the monotonicity part of the amended C1 at concrete
probabilities 0.2 and 0.7. -/
theorem churn_risk_monotone_in_probability_witness :
    riskRank (riskOfProbability (2/10)) ≤ riskRank (riskOfProbability (7/10)) :=
  churn_risk_monotone_in_probability.2.1 (2/10) (7/10)
    (by norm_num) (by norm_num) (by norm_num)

/-- Weight mapping summing to 0.9 (the fixture of the C3 claim). -/
def weightsPoint9 : List (String × ℚ) :=
  [("engagement", 4/10), ("revenue", 3/10), ("support", 1/10), ("nps", 1/10)]

/-- A single-customer population used to show that scoring proceeds under
the 0.9-weight configuration. -/
def pC3 : Profile :=
  { sampleBase with
    customer_pk := "CUST_C3"
    engagement_score := some 2
    total_lifetime_revenue := some 1000
    avg_satisfaction_score_lifetime := some 4
    most_recent_nps_score := some 8 }

/-- C3 counterexample: the configuration whose weights sum to 0.9 loads
without any error, and a customer is subsequently scored — no
configuration error is raised before scoring, contrary to the claim. -/
theorem weights_not_validated_counterexample :
    ((weightsPoint9.map Prod.snd).sum = 9/10)
    ∧ (loadSettings weightsPoint9 =
        Except.ok
          { prophet_forecast_days := 30
            churn_risk_threshold_high := 7/10
            churn_risk_threshold_medium := 4/10
            health_score_weights := weightsPoint9 })
    ∧ currentHealthScore [pC3] pC3 = some 94 := by
  refine ⟨by norm_num [weightsPoint9], rfl, ?_⟩
  simp [currentHealthScore, engagementNormalized, revenueNormalized,
    supportNormalized, npsNormalized, colMax, listMaxQ, normByMax,
    npRound, roundHalfEven, fillHealthDefaults, pC3, sampleBase, max_def]
  norm_num

/-- C3 (amended): configuration load never validates the health-score
weight sum — every well-typed weight mapping is accepted unchanged, so no
configuration error can stop the batch; scoring itself uses the hardcoded
literals 0.4/0.3/0.2/0.1 and ignores the configured mapping entirely. -/
theorem load_settings_accepts_any_weights (weights : List (String × ℚ)) :
    ∃ s : Settings, loadSettings weights = Except.ok s
      ∧ s.health_score_weights = weights :=
  ⟨_, rfl, rfl⟩

/-- C10 (confirmed): batch processing returns exactly one result row per
input customer for every per-customer step, and whenever the step raises
for a customer, the row of that customer is the placeholder produced by the
`except` branch (risk level Unknown, recommended action
"Error in analysis") rather than being dropped. -/
theorem process_customer_batch_total_with_placeholders
    (step : RuleCustomer → Except String ResultRow)
    (customers : List RuleCustomer) :
    (processCustomerBatchWith step customers).length = customers.length
    ∧ ∀ (i : ℕ) (c : RuleCustomer) (e : String),
        customers[i]? = some c → step c = Except.error e →
        (processCustomerBatchWith step customers)[i]? = some (errorResultRow c) := by
  constructor
  · simp [processCustomerBatchWith]
  · intro i c e hc hs
    simp [processCustomerBatchWith, List.getElem?_map, hc, hs]

/-- Customer processed successfully in the C10 witness batch. -/
def rcOk : RuleCustomer :=
  { customer_pk := some "CUST_OK"
    engagement_score := some (8/10)
    days_since_last_engagement := some 5
    total_lifetime_revenue := some 15000
    average_transaction_value := some 500
    total_support_tickets_lifetime := some 1
    avg_satisfaction_score_lifetime := some (48/10)
    most_recent_nps_score := some 9 }

/-- Customer whose processing raises in the C10 witness batch. -/
def rcBad : RuleCustomer :=
  { customer_pk := some "CUST_BAD"
    engagement_score := some (2/10)
    days_since_last_engagement := some 45
    total_lifetime_revenue := some 500
    average_transaction_value := some 50
    total_support_tickets_lifetime := some 8
    avg_satisfaction_score_lifetime := some (25/10)
    most_recent_nps_score := some 3 }

/-- A per-customer step that raises on `rcBad` and otherwise runs the real
per-customer analysis. -/
def failingStep (c : RuleCustomer) : Except String ResultRow :=
  if c.customer_pk = some "CUST_BAD" then Except.error "ValueError"
  else Except.ok (processOneCustomer c)

/-- Witness for C10: on the two-customer batch whose second customer
raises, the output still has two rows and the second row is the
placeholder. -/
theorem process_customer_batch_total_with_placeholders_witness :
    (processCustomerBatchWith failingStep [rcOk, rcBad]).length = 2
    ∧ (processCustomerBatchWith failingStep [rcOk, rcBad])[1]? =
        some (errorResultRow rcBad) := by
  have h := process_customer_batch_total_with_placeholders failingStep [rcOk, rcBad]
  exact ⟨h.1, h.2 1 rcBad "ValueError" rfl (by simp [failingStep, rcBad])⟩

/-- C8 (confirmed): for a customer classified High risk, the recommended
action is chosen by the ordered decision table with first-match-wins
precedence — high revenue (> 10000) wins over stale engagement (> 30
days), which wins over low recent satisfaction (NPS < 3), which wins over
the retention-offer fallback. -/
theorem high_risk_decision_table_precedence (sp : ScoredProfile)
    (h : churnRisk sp = some RiskLevel.High) :
    (ogtB (goldFillRisk sp.profile).total_lifetime_revenue 10000 = true →
      recommendedAction (goldFillRisk sp.profile) (churnRisk sp) =
        "Schedule proactive call with senior account manager")
    ∧ (ogtB (goldFillRisk sp.profile).total_lifetime_revenue 10000 = false →
        ogtB (goldFillRisk sp.profile).days_since_last_engagement 30 = true →
        recommendedAction (goldFillRisk sp.profile) (churnRisk sp) =
          "Send personalized re-engagement campaign")
    ∧ (ogtB (goldFillRisk sp.profile).total_lifetime_revenue 10000 = false →
        ogtB (goldFillRisk sp.profile).days_since_last_engagement 30 = false →
        oltB (goldFillRisk sp.profile).most_recent_nps_score 3 = true →
        recommendedAction (goldFillRisk sp.profile) (churnRisk sp) =
          "Conduct satisfaction survey and address concerns")
    ∧ (ogtB (goldFillRisk sp.profile).total_lifetime_revenue 10000 = false →
        ogtB (goldFillRisk sp.profile).days_since_last_engagement 30 = false →
        oltB (goldFillRisk sp.profile).most_recent_nps_score 3 = false →
        recommendedAction (goldFillRisk sp.profile) (churnRisk sp) =
          "Offer retention discount or additional support") := by
  rw [h]
  refine ⟨?_, ?_, ?_, ?_⟩
  · intro h1; simp [recommendedAction, h1]
  · intro h1 h2; simp [recommendedAction, h1, h2]
  · intro h1 h2 h3; simp [recommendedAction, h1, h2, h3]
  · intro h1 h2 h3; simp [recommendedAction, h1, h2, h3]

/-- High-risk customer for which all three specific conditions are
simultaneously true: revenue 20000, 40 days since engagement, NPS 1,
8 support tickets (churn probability 0.7). -/
def spC8 : ScoredProfile :=
  { profile :=
      { sampleBase with
        customer_pk := "CUST_C8"
        engagement_score := some (1/10)
        total_lifetime_revenue := some 20000
        avg_satisfaction_score_lifetime := some 1
        most_recent_nps_score := some 1
        days_since_last_engagement := some 40
        total_support_tickets_lifetime := some 8 }
    current_health_score := some 30
    health_level := some "Poor" }

/-- Witness for C8: `spC8` satisfies all three specific conditions at
once, and the first branch (senior-account-manager escalation) wins. -/
theorem high_risk_decision_table_precedence_witness :
    recommendedAction (goldFillRisk spC8.profile) (churnRisk spC8) =
      "Schedule proactive call with senior account manager" := by
  have h := high_risk_decision_table_precedence spC8 (by
    simp [churnRisk, churnProbability, churnProbabilityRaw, goldFillRisk,
      clip01, riskOfProbability, oltB, ogtB, spC8, sampleBase]
    norm_num)
  exact h.1 (by simp [goldFillRisk, ogtB, spC8, sampleBase]; norm_num)

/-- C2 (amended): for every customer of a population whose engagement and
revenue column maxima are positive and whose own satisfaction and NPS
inputs are within their documented scales, the health score is defined and
lies in `[0, 100]`; and recomputing the score from the identical inputs
yields the identical value (the function is pure).  Without the
positivity hypotheses the score can be `NaN` (see the counterexample). -/
theorem health_score_in_range
    (pop : List Profile) (p : Profile) (hmem : p ∈ pop)
    (me : ℚ)
    (hme : colMax (fun q => q.engagement_score) (pop.map fillHealthDefaults) = some me)
    (hmepos : 0 < me)
    (mr : ℚ)
    (hmr : colMax (fun q => q.total_lifetime_revenue) (pop.map fillHealthDefaults) = some mr)
    (hmrpos : 0 < mr)
    (heng : 0 ≤ p.engagement_score.getD 0)
    (hrev : 0 ≤ p.total_lifetime_revenue.getD 0)
    (hsat0 : 0 ≤ p.avg_satisfaction_score_lifetime.getD 0)
    (hsat5 : p.avg_satisfaction_score_lifetime.getD 0 ≤ 5)
    (hnps0 : 0 ≤ p.most_recent_nps_score.getD 0)
    (hnps10 : p.most_recent_nps_score.getD 0 ≤ 10) :
    ∃ h, currentHealthScore pop p = some h ∧ 0 ≤ h ∧ h ≤ 100
      ∧ currentHealthScore pop p = currentHealthScore pop p := by
  have hEmem : p.engagement_score.getD 0 ∈
      (pop.map fillHealthDefaults).filterMap (fun q => q.engagement_score) :=
    List.mem_filterMap.mpr ⟨fillHealthDefaults p, List.mem_map_of_mem _ hmem, rfl⟩
  have hRmem : p.total_lifetime_revenue.getD 0 ∈
      (pop.map fillHealthDefaults).filterMap (fun q => q.total_lifetime_revenue) :=
    List.mem_filterMap.mpr ⟨fillHealthDefaults p, List.mem_map_of_mem _ hmem, rfl⟩
  have hele : p.engagement_score.getD 0 ≤ me := le_of_mem_listMaxQ hEmem hme
  have hrle : p.total_lifetime_revenue.getD 0 ≤ mr := le_of_mem_listMaxQ hRmem hmr
  have hE : engagementNormalized pop p = some (p.engagement_score.getD 0 / me) := by
    unfold engagementNormalized
    rw [hme]
    simp [normByMax, fillHealthDefaults, hmepos.ne']
  have hR : revenueNormalized pop p = some (p.total_lifetime_revenue.getD 0 / mr) := by
    unfold revenueNormalized
    rw [hmr]
    simp [normByMax, fillHealthDefaults, hmrpos.ne']
  have hS : supportNormalized p =
      some (p.avg_satisfaction_score_lifetime.getD 0 / 5) := rfl
  have hN : npsNormalized p = some (p.most_recent_nps_score.getD 0 / 10) := rfl
  have hscore : currentHealthScore pop p =
      some (npRound 1 ((p.engagement_score.getD 0 / me * (4/10)
        + p.total_lifetime_revenue.getD 0 / mr * (3/10)
        + p.avg_satisfaction_score_lifetime.getD 0 / 5 * (2/10)
        + p.most_recent_nps_score.getD 0 / 10 * (1/10)) * 100)) := by
    unfold currentHealthScore
    rw [hE, hR, hS, hN]
  have hE1 : p.engagement_score.getD 0 / me ≤ 1 :=
    (div_le_one hmepos).mpr hele
  have hE0 : 0 ≤ p.engagement_score.getD 0 / me := div_nonneg heng hmepos.le
  have hR1 : p.total_lifetime_revenue.getD 0 / mr ≤ 1 :=
    (div_le_one hmrpos).mpr hrle
  have hR0 : 0 ≤ p.total_lifetime_revenue.getD 0 / mr := div_nonneg hrev hmrpos.le
  have hS1 : p.avg_satisfaction_score_lifetime.getD 0 / 5 ≤ 1 := by linarith
  have hS0 : 0 ≤ p.avg_satisfaction_score_lifetime.getD 0 / 5 := by linarith
  have hN1 : p.most_recent_nps_score.getD 0 / 10 ≤ 1 := by linarith
  have hN0 : 0 ≤ p.most_recent_nps_score.getD 0 / 10 := by linarith
  refine ⟨_, hscore, npRound_nonneg 1 (by nlinarith), ?_, rfl⟩
  have h100 : (p.engagement_score.getD 0 / me * (4/10)
      + p.total_lifetime_revenue.getD 0 / mr * (3/10)
      + p.avg_satisfaction_score_lifetime.getD 0 / 5 * (2/10)
      + p.most_recent_nps_score.getD 0 / 10 * (1/10)) * 100 ≤ ((100 : ℤ) : ℚ) := by
    push_cast
    nlinarith
  have := npRound_le_int 1 h100
  push_cast at this
  exact this

/-- Customer for the C2 witness population. -/
def pC2W : Profile :=
  { sampleBase with
    customer_pk := "CUST_C2W"
    engagement_score := some 2
    total_lifetime_revenue := some 1200
    avg_satisfaction_score_lifetime := some 3
    most_recent_nps_score := some 7 }

/-- Witness for C2 (amended): on a concrete one-customer population with
positive column maxima, the health score exists and is in `[0, 100]`. -/
theorem health_score_in_range_witness :
    ∃ h, currentHealthScore [pC2W] pC2W = some h ∧ 0 ≤ h ∧ h ≤ 100
      ∧ currentHealthScore [pC2W] pC2W = currentHealthScore [pC2W] pC2W :=
  health_score_in_range [pC2W] pC2W (by simp)
    2 (by simp [colMax, listMaxQ, fillHealthDefaults, pC2W, sampleBase]) (by norm_num)
    1200 (by simp [colMax, listMaxQ, fillHealthDefaults, pC2W, sampleBase]) (by norm_num)
    (by norm_num [pC2W, sampleBase]) (by norm_num [pC2W, sampleBase])
    (by norm_num [pC2W, sampleBase]) (by norm_num [pC2W, sampleBase])
    (by norm_num [pC2W, sampleBase]) (by norm_num [pC2W, sampleBase])

/-- Customer whose batch has an all-zero revenue column: one transaction
of amount 0. -/
def pC2cx : Profile :=
  { sampleBase with
    customer_pk := "CUST_C2X"
    engagement_score := some 2
    total_lifetime_revenue := some 0
    average_transaction_value := some 0
    total_transactions_count := some 1 }

/-- C2 counterexample: in the batch `[pC2cx]` the revenue column maximum
is 0, the revenue normalization is `0/0 = NaN`, and the resulting health
score is `NaN` — not a number in `[0, 100]`, contrary to the claim that
the score always lies in that interval. -/
theorem health_score_nan_counterexample :
    currentHealthScore [pC2cx] pC2cx = none := by
  simp [currentHealthScore, engagementNormalized, revenueNormalized,
    supportNormalized, npsNormalized, colMax, listMaxQ, normByMax,
    fillHealthDefaults, pC2cx, sampleBase]

/-! ### Spec-side min-max normalization (for claim C5) -/

/-- Modelled from the spec: min-max scaling of a value over the current
population, `(x − population min) / (population max − population min)`,
undefined when the population has no spread.  This definition follows the
wording of the spec and exists only to be compared against the source
normalization. -/
def specMinMaxNormalized (mn mx x : Option ℚ) : Option ℚ :=
  match x, mn, mx with
  | some v, some a, some b => if b - a = 0 then none else some ((v - a) / (b - a))
  | _, _, _ => none

/-- Spec-side engagement normalization over the filled population column. -/
def specEngagementNormalized (pop : List Profile) (p : Profile) : Option ℚ :=
  specMinMaxNormalized
    (colMin (fun q => q.engagement_score) (pop.map fillHealthDefaults))
    (colMax (fun q => q.engagement_score) (pop.map fillHealthDefaults))
    (fillHealthDefaults p).engagement_score

/-- Spec-side revenue normalization over the filled population column. -/
def specRevenueNormalized (pop : List Profile) (p : Profile) : Option ℚ :=
  specMinMaxNormalized
    (colMin (fun q => q.total_lifetime_revenue) (pop.map fillHealthDefaults))
    (colMax (fun q => q.total_lifetime_revenue) (pop.map fillHealthDefaults))
    (fillHealthDefaults p).total_lifetime_revenue

/-- First customer of the C5 counterexample population (engagement 1). -/
def pC5a : Profile :=
  { sampleBase with
    customer_pk := "CUST_C5A"
    engagement_score := some 1
    total_lifetime_revenue := some 100 }

/-- Second customer of the C5 counterexample population (engagement 2). -/
def pC5b : Profile :=
  { sampleBase with
    customer_pk := "CUST_C5B"
    engagement_score := some 2
    total_lifetime_revenue := some 200 }

/-- C5 counterexample: over the population with engagement scores `{1, 2}`
the code normalizes the engagement of the first customer to `1/2`
(division by the population maximum), while the claimed min-max scaling
`(x − min)/(max − min)` would give `0`; the two disagree. -/
theorem normalization_is_not_minmax_counterexample :
    engagementNormalized [pC5a, pC5b] pC5a = some (1/2)
    ∧ specEngagementNormalized [pC5a, pC5b] pC5a = some 0
    ∧ ((1/2 : ℚ) ≠ 0) := by
  refine ⟨?_, ?_, by norm_num⟩
  · simp [engagementNormalized, colMax, listMaxQ, normByMax,
      fillHealthDefaults, pC5a, pC5b, sampleBase, max_def]
  · simp [specEngagementNormalized, specMinMaxNormalized, colMin, colMax,
      listMinQ, listMaxQ, fillHealthDefaults, pC5a, pC5b, sampleBase,
      max_def, min_def]
    norm_num

theorem listMaxQ_isSome_of_listMinQ {l : List ℚ} {a : ℚ}
    (h : listMinQ l = some a) : ∃ m, listMaxQ l = some m := by
  cases l with
  | nil => simp [listMinQ] at h
  | cons x xs => exact ⟨_, rfl⟩

/-- C5 (amended): the engagement and revenue signals are normalized by
dividing by the population maximum (population-relative), which coincides
with the claimed min-max scaling exactly when the population minimum of
the signal is 0; support and satisfaction are scaled by the fixed
constants 5 and 10 instead of any population statistic. -/
theorem normalization_matches_minmax_iff_min_zero
    (pop : List Profile) (p : Profile) :
    (colMin (fun q => q.engagement_score) (pop.map fillHealthDefaults) = some 0 →
      engagementNormalized pop p = specEngagementNormalized pop p)
    ∧ (colMin (fun q => q.total_lifetime_revenue) (pop.map fillHealthDefaults) = some 0 →
      revenueNormalized pop p = specRevenueNormalized pop p) := by
  constructor
  · intro hmin
    have hmin' : listMinQ ((pop.map fillHealthDefaults).filterMap
        (fun q => q.engagement_score)) = some 0 := hmin
    obtain ⟨m, hmax⟩ := listMaxQ_isSome_of_listMinQ hmin'
    unfold engagementNormalized specEngagementNormalized colMax colMin
    rw [hmax, hmin']
    simp [normByMax, specMinMaxNormalized, fillHealthDefaults]
  · intro hmin
    have hmin' : listMinQ ((pop.map fillHealthDefaults).filterMap
        (fun q => q.total_lifetime_revenue)) = some 0 := hmin
    obtain ⟨m, hmax⟩ := listMaxQ_isSome_of_listMinQ hmin'
    unfold revenueNormalized specRevenueNormalized colMax colMin
    rw [hmax, hmin']
    simp [normByMax, specMinMaxNormalized, fillHealthDefaults]

/-- Customer population for the C5 witness: engagement minimum is 0, so
the division by the maximum equals min-max scaling there. -/
def pC5w : Profile :=
  { sampleBase with
    customer_pk := "CUST_C5W"
    engagement_score := some 0
    total_lifetime_revenue := some 0 }

/-- Second customer of the C5 witness population. -/
def pC5w2 : Profile :=
  { sampleBase with
    customer_pk := "CUST_C5W2"
    engagement_score := some 4
    total_lifetime_revenue := some 50 }

/-- Witness for C5 (amended): on a population whose engagement and revenue
minima are 0, the normalization of the code and the min-max scaling of the spec
agree. -/
theorem normalization_matches_minmax_iff_min_zero_witness :
    engagementNormalized [pC5w, pC5w2] pC5w2 = specEngagementNormalized [pC5w, pC5w2] pC5w2
    ∧ revenueNormalized [pC5w, pC5w2] pC5w2 = specRevenueNormalized [pC5w, pC5w2] pC5w2 := by
  have h := normalization_matches_minmax_iff_min_zero [pC5w, pC5w2] pC5w2
  refine ⟨h.1 ?_, h.2 ?_⟩
  · simp [colMin, listMinQ, fillHealthDefaults, pC5w, pC5w2, sampleBase, min_def]
  · simp [colMin, listMinQ, fillHealthDefaults, pC5w, pC5w2, sampleBase, min_def]

/-- Customer for the C6 counterexample and witness: a population of
exactly one customer with a nonzero engagement score. -/
def pC6 : Profile :=
  { sampleBase with
    customer_pk := "CUST_C6"
    engagement_score := some 2
    total_lifetime_revenue := some 300 }

/-- C6 counterexample: for the single-customer population the engagement
normalization evaluates to `1.0` (the value divided by itself), not to the
claimed substituted `0.0`. -/
theorem single_customer_normalized_to_one_counterexample :
    engagementNormalized [pC6] pC6 = some 1
    ∧ (some (1 : ℚ) ≠ some (0 : ℚ)) := by
  refine ⟨?_, by norm_num⟩
  simp [engagementNormalized, colMax, listMaxQ, normByMax,
    fillHealthDefaults, pC6, sampleBase]

/-- C6 (amended): on a zero-variance engagement column no exception is
raised (the embedded normalization is a total function), and the
normalized value is not a substituted `0.0`: when the common value is `0`
the division `0/0` is undefined (`NaN`), and when it is nonzero every
normalized value is `1.0`. -/
theorem zero_variance_normalization (pop : List Profile) (p : Profile)
    (hmem : p ∈ pop)
    (hconst : ∀ q ∈ pop, q.engagement_score.getD 0 = p.engagement_score.getD 0) :
    (p.engagement_score.getD 0 = 0 → engagementNormalized pop p = none)
    ∧ (p.engagement_score.getD 0 ≠ 0 → engagementNormalized pop p = some 1) := by
  have hcol : colMax (fun q => q.engagement_score) (pop.map fillHealthDefaults)
      = some (p.engagement_score.getD 0) := by
    unfold colMax
    apply listMaxQ_const
    · intro hempty
      have : p.engagement_score.getD 0 ∈
          (pop.map fillHealthDefaults).filterMap (fun q => q.engagement_score) :=
        List.mem_filterMap.mpr ⟨fillHealthDefaults p, List.mem_map_of_mem _ hmem, rfl⟩
      rw [hempty] at this
      cases this
    · intro b hb
      obtain ⟨q, hq, hqb⟩ := List.mem_filterMap.mp hb
      obtain ⟨q0, hq0, rfl⟩ := List.mem_map.mp hq
      have : (fillHealthDefaults q0).engagement_score = some (q0.engagement_score.getD 0) := rfl
      rw [this] at hqb
      cases hqb
      exact hconst q0 hq0
  constructor
  · intro hzero
    unfold engagementNormalized
    rw [hcol, hzero]
    simp [normByMax, fillHealthDefaults]
  · intro hnz
    unfold engagementNormalized
    rw [hcol]
    simp [normByMax, fillHealthDefaults, hnz, div_self hnz]

/-- Witness for C6 (amended): the single-customer population `[pC6]` has a
zero-variance engagement column with nonzero value, and the normalization
yields `1.0` without raising. -/
theorem zero_variance_normalization_witness :
    engagementNormalized [pC6] pC6 = some 1 :=
  (zero_variance_normalization [pC6] pC6 (by simp)
    (by intro q hq; simp at hq; subst hq; rfl)).2
    (by norm_num [pC6, sampleBase])

/-- Customer with no events at all, for the C7 counterexample. -/
def cC7 : CustomerRow :=
  { customer_pk := "CUST_C7"
    first_name := "Grace"
    last_name := "Hopper"
    email_address := "grace@example.com"
    current_subscription_plan := "Standard"
    account_status_standardized := "Active"
    account_creation_date := some 0 }

/-- C7 counterexample: for a population whose event sources are all empty
(a single customer with zero events), the Silver stage does not produce a
defaulted `CustomerMetrics` row — it raises `KeyError`, because the merged
frame lacks the metric columns that `_calculate_health_score`
subscripts. -/
theorem metrics_row_missing_counterexample :
    calculateDerivedMetrics 100 [cC7] [] [] [] [] =
      Except.error "KeyError: missing metric columns" := rfl

/-- C7 (amended): when every event source has at least one event of a
known customer, the Silver stage succeeds with exactly one row per
customer, and the only per-source fields guaranteed non-null afterwards
are the four that `_calculate_health_score` fills (`engagement_score`,
`total_lifetime_revenue`, `avg_satisfaction_score_lifetime`,
`most_recent_nps_score`); a customer with no transactions keeps a null
`days_since_last_transaction` (the large-sentinel default exists only for
`days_since_last_engagement`, applied later in the Gold fill). -/
theorem derived_metrics_shape
    (now : ℤ) (customers : List CustomerRow) (txs : List TransactionRow)
    (evs : List EngagementRow) (tks : List SupportRow) (svs : List SurveyRow)
    (h1 : (validEvents (fun t => t.customer_id) customers txs).isEmpty = false)
    (h2 : (validEvents (fun e => e.customer_id) customers evs).isEmpty = false)
    (h3 : (validEvents (fun s => s.customer_id) customers tks).isEmpty = false)
    (h4 : (validEvents (fun v => v.customer_id) customers svs).isEmpty = false) :
    ∃ ps, calculateDerivedMetrics now customers txs evs tks svs = Except.ok ps
      ∧ ps.length = customers.length
      ∧ (∀ sp ∈ ps, sp.profile.engagement_score.isSome
          ∧ sp.profile.total_lifetime_revenue.isSome
          ∧ sp.profile.avg_satisfaction_score_lifetime.isSome
          ∧ sp.profile.most_recent_nps_score.isSome)
      ∧ (∀ (i : ℕ) (c : CustomerRow), customers[i]? = some c →
          eventsOf (fun t => t.customer_id)
            (validEvents (fun t => t.customer_id) customers txs) c.customer_pk = [] →
          ∃ sp, ps[i]? = some sp
            ∧ sp.profile.days_since_last_transaction = none) := by
  refine ⟨calculateHealthScore (customers.map (fun c =>
      buildProfile now c
        (eventsOf (fun t => t.customer_id)
          (validEvents (fun t => t.customer_id) customers txs) c.customer_pk)
        (eventsOf (fun e => e.customer_id)
          (validEvents (fun e => e.customer_id) customers evs) c.customer_pk)
        (eventsOf (fun s => s.customer_id)
          (validEvents (fun s => s.customer_id) customers tks) c.customer_pk)
        (eventsOf (fun v => v.customer_id)
          (validEvents (fun v => v.customer_id) customers svs) c.customer_pk))),
    ?_, ?_, ?_, ?_⟩
  · simp [calculateDerivedMetrics, h1, h2, h3, h4]
  · simp [calculateHealthScore]
  · intro sp hsp
    unfold calculateHealthScore at hsp
    obtain ⟨q, _, rfl⟩ := List.mem_map.mp hsp
    exact ⟨rfl, rfl, rfl, rfl⟩
  · intro i c hc hts
    unfold calculateHealthScore
    rw [List.getElem?_map, List.getElem?_map, hc]
    simp only [Option.map_some']
    refine ⟨_, rfl, ?_⟩
    simp only [fillHealthDefaults, buildProfile, hts]

/-- Customer with events in every source, for the C7 witness. -/
def cC7w1 : CustomerRow :=
  { cC7 with customer_pk := "CUST_C7W1" }

/-- Customer with zero events anywhere, for the C7 witness. -/
def cC7w2 : CustomerRow :=
  { cC7 with customer_pk := "CUST_C7W2" }

/-- One transaction of the C7 witness data. -/
def tC7 : TransactionRow :=
  { customer_id := "CUST_C7W1", amount := 250, transaction_date := 90 }

/-- One engagement event of the C7 witness data. -/
def eC7 : EngagementRow :=
  { customer_id := "CUST_C7W1", event_timestamp := 95, event_type := "login",
    session_id := "S1" }

/-- One support ticket of the C7 witness data. -/
def sC7 : SupportRow :=
  { customer_id := "CUST_C7W1", ticket_id := "T1", satisfaction_score := 4,
    created_at := 80 }

/-- One survey response of the C7 witness data. -/
def vC7 : SurveyRow :=
  { customer_id := "CUST_C7W1", nps_score := 8, response_date := 70 }

/-- Witness for C7 (amended): with one event per source for the first
customer, the stage succeeds with two rows; the second customer (no
transactions) keeps a null `days_since_last_transaction`. -/
theorem derived_metrics_shape_witness :
    ∃ ps, calculateDerivedMetrics 100 [cC7w1, cC7w2] [tC7] [eC7] [sC7] [vC7] =
        Except.ok ps
      ∧ ps.length = 2
      ∧ (∀ sp ∈ ps, sp.profile.engagement_score.isSome
          ∧ sp.profile.total_lifetime_revenue.isSome
          ∧ sp.profile.avg_satisfaction_score_lifetime.isSome
          ∧ sp.profile.most_recent_nps_score.isSome)
      ∧ ∃ sp, ps[1]? = some sp
          ∧ sp.profile.days_since_last_transaction = none := by
  obtain ⟨ps, hok, hlen, hsome, hnull⟩ :=
    derived_metrics_shape 100 [cC7w1, cC7w2] [tC7] [eC7] [sC7] [vC7]
      (by simp [validEvents, cC7w1, cC7w2, cC7, tC7])
      (by simp [validEvents, cC7w1, cC7w2, cC7, eC7])
      (by simp [validEvents, cC7w1, cC7w2, cC7, sC7])
      (by simp [validEvents, cC7w1, cC7w2, cC7, vC7])
  refine ⟨ps, hok, hlen, hsome, ?_⟩
  exact hnull 1 cC7w2 rfl
    (by simp [eventsOf, validEvents, cC7w1, cC7w2, cC7, tC7])

/-- Projection of a customer 360 row onto its deterministic columns: the
two randomized columns (`YOY_MRR_growth_percentage`,
`open_support_tickets_count`) are reset to a fixed value. -/
def stripRandom (r : Customer360Row) : Customer360Row :=
  { r with yoy_mrr_growth_percentage := 0, open_support_tickets_count := 0 }

theorem createDashboardKpis_rng_invariant (now : ℤ)
    (rows1 rows2 : List Customer360Row)
    (h : rows1.map stripRandom = rows2.map stripRandom) :
    createDashboardKpis now rows1 = createDashboardKpis now rows2 := by
  have hcount : ∀ (q : Customer360Row → Bool), (∀ r, q (stripRandom r) = q r) →
      (rows1.filter q).length = (rows2.filter q).length := by
    intro q hq
    rw [← List.countP_eq_length_filter, ← List.countP_eq_length_filter]
    have e1 : (rows1.map stripRandom).countP q = rows1.countP q := by
      rw [List.countP_map]
      exact List.countP_congr (fun a _ => by simp [Function.comp, hq a])
    have e2 : (rows2.map stripRandom).countP q = rows2.countP q := by
      rw [List.countP_map]
      exact List.countP_congr (fun a _ => by simp [Function.comp, hq a])
    rw [← e1, ← e2, h]
  have hmap : ∀ {α : Type} (f : Customer360Row → α),
      (∀ r, f (stripRandom r) = f r) → rows1.map f = rows2.map f := by
    intro α f hf
    have e1 : (rows1.map stripRandom).map f = rows1.map f := by
      rw [List.map_map]
      exact List.map_congr_left (fun a _ => hf a)
    have e2 : (rows2.map stripRandom).map f = rows2.map f := by
      rw [List.map_map]
      exact List.map_congr_left (fun a _ => hf a)
    rw [← e1, ← e2, h]
  have hA := hcount (fun r => r.account_status_standardized = "Active")
    (fun r => by simp [stripRandom])
  have hC := hcount (fun r => r.account_status_standardized = "Churned")
    (fun r => by simp [stripRandom])
  have hNew := hcount (fun r => oleZB r.days_since_signup 30)
    (fun r => by simp [stripRandom])
  have hEng := hcount (fun r => oltB r.engagement_score (3/10))
    (fun r => by simp [stripRandom])
  have hTick := hcount (fun r => ogtB r.total_support_tickets_lifetime 5)
    (fun r => by simp [stripRandom])
  have hNps := hcount (fun r => oltB r.most_recent_nps_score 3)
    (fun r => by simp [stripRandom])
  have hRev := hcount (fun r => oltB r.total_lifetime_revenue 1000)
    (fun r => by simp [stripRandom])
  have hMrr := hmap (fun r => r.mrr_current_month) (fun r => by simp [stripRandom])
  have hNpsM := hmap (fun r => r.most_recent_nps_score) (fun r => by simp [stripRandom])
  have hHealth := hmap (fun r => r.current_health_score) (fun r => by simp [stripRandom])
  unfold createDashboardKpis topChurnReasons
  rw [hA, hC, hNew, hEng, hTick, hNps, hRev, hMrr, hNpsM, hHealth]

/-- C9 (amended): for a fixed snapshot time, two runs of the Gold table
builders on the same scored profiles agree on every deterministic column
of `customer_360` (all columns except the two drawn from the ambient
random generator) and produce identical `kpi_snapshot` rows, whatever random
streams the two runs use. -/
theorem gold_outputs_deterministic_modulo_random_columns
    (now : ℤ) (u1 u2 : ℕ → ℚ) (k1 k2 : ℕ → ℕ) (profiles : List ScoredProfile) :
    (createCustomer360View now u1 k1 profiles).map stripRandom =
      (createCustomer360View now u2 k2 profiles).map stripRandom
    ∧ createDashboardKpis now (createCustomer360View now u1 k1 profiles) =
      createDashboardKpis now (createCustomer360View now u2 k2 profiles) := by
  have hstrip : (createCustomer360View now u1 k1 profiles).map stripRandom =
      (createCustomer360View now u2 k2 profiles).map stripRandom := by
    simp only [createCustomer360View, List.map_map]
    exact List.map_congr_left (fun e _ => rfl)
  exact ⟨hstrip, createDashboardKpis_rng_invariant now _ _ hstrip⟩

/-- Scored profile of the C9 counterexample batch. -/
def spC9 : ScoredProfile :=
  { profile :=
      { sampleBase with
        customer_pk := "CUST_C9"
        engagement_score := some 1
        total_lifetime_revenue := some 2000
        average_transaction_value := some 100
        days_since_last_engagement := some 3
        total_support_tickets_lifetime := some 1
        most_recent_nps_score := some 8 }
    current_health_score := some 60
    health_level := some "Fair" }

/-- C9 counterexample: two runs on the same inputs and the same snapshot
time, differing only in the ambient random state, produce `customer_360`
tables that differ in `YOY_MRR_growth_percentage` — a non-timestamp
column — so the tables are not byte-identical up to the batch timestamp
column. -/
theorem republished_customer_360_differs_counterexample :
    (createCustomer360View 0 (fun _ => 0) (fun _ => 0) [spC9]).map
        (fun r => r.yoy_mrr_growth_percentage) = [0]
    ∧ (createCustomer360View 0 (fun _ => 1) (fun _ => 0) [spC9]).map
        (fun r => r.yoy_mrr_growth_percentage) = [1]
    ∧ createCustomer360View 0 (fun _ => 0) (fun _ => 0) [spC9]
        ≠ createCustomer360View 0 (fun _ => 1) (fun _ => 0) [spC9] := by
  have h0 : (createCustomer360View 0 (fun _ => 0) (fun _ => 0) [spC9]).map
      (fun r => r.yoy_mrr_growth_percentage) = [0] := by
    simp [createCustomer360View, mkCustomer360Row, npRound, roundHalfEven]
  have h1 : (createCustomer360View 0 (fun _ => 1) (fun _ => 0) [spC9]).map
      (fun r => r.yoy_mrr_growth_percentage) = [1] := by
    simp [createCustomer360View, mkCustomer360Row, npRound, roundHalfEven]
  refine ⟨h0, h1, fun heq => ?_⟩
  rw [heq] at h0
  have : ([0] : List ℚ) = [1] := h0.symm.trans h1
  simp at this

/-- Scored profile of the C4 failing batch: an active customer. -/
def spC4 : ScoredProfile :=
  { profile := { sampleBase with customer_pk := "CUST_C4" }
    current_health_score := some 50
    health_level := some "Fair" }

/-- C4 (code bug): on any non-empty batch the Gold aggregation raises
before saving or validating anything — `create_ai_model_features`
subscripts the `total_engagement_events` column, which the dashboard
filter removed — so no batch is ever validated or published, and the
claimed validation-gated atomic publication cannot occur.  Shown here at
a concrete one-customer batch against an empty published state, for the
aggregation and for the orchestrator step wrapping it. -/
theorem gold_aggregation_always_raises :
    aggregateSilverToGold 0 (fun _ => 0) (fun _ => 0) [spC4] [] =
      Except.error "KeyError: total_engagement_events"
    ∧ runGoldAggregation 0 (fun _ => 0) (fun _ => 0) [spC4] [] =
      Except.error "KeyError: total_engagement_events" := by
  have hcond : ((createCustomer360View 0 (fun _ => 0) (fun _ => 0) [spC4]).filter
        (fun r => r.account_status_standardized = "Active")).length
      + ((createCustomer360View 0 (fun _ => 0) (fun _ => 0) [spC4]).filter
        (fun r => r.account_status_standardized = "Churned")).length ≠ 0 := by
    simp [createCustomer360View, mkCustomer360Row, goldFillRisk, spC4, sampleBase]
  have hkpi : ∃ k, createDashboardKpis 0
      (createCustomer360View 0 (fun _ => 0) (fun _ => 0) [spC4]) = Except.ok k := by
    simp only [createDashboardKpis]
    rw [if_neg hcond]
    exact ⟨_, rfl⟩
  obtain ⟨k, hk⟩ := hkpi
  have hagg : aggregateSilverToGold 0 (fun _ => 0) (fun _ => 0) [spC4] [] =
      Except.error "KeyError: total_engagement_events" := by
    simp [aggregateSilverToGold, hk, createAiModelFeatures, Bind.bind, Except.instMonad, Except.bind]
  exact ⟨hagg, by simp [runGoldAggregation, hagg]⟩

end Aura
